import Mathlib

/-!
Shallow embedding of the MP2667 battery-charger driver (Rust crate
`mp2667`): the register codec layer generated by `modular_bitfield`
(`#[bitfield]` structs in `src/lib.rs` / `src/registers.rs`) and the bus
transaction layer (`src/macros.rs`, `impl MP2667` in `src/lib.rs`).

Each register is a one-byte bit-packed structure.  `modular_bitfield`
stores the raw byte: `from_bytes` wraps it unchanged, `into_bytes`
returns it unchanged, getters extract the field bits (LSB-first), and
setters overwrite exactly the field bits.  Skipped (reserved) fields
have no accessors; their bits ride along in the stored byte.
-/

/-- Extract `w` bits of `b` starting at bit `lo` (LSB-first). -/
def getBits (b lo w : Nat) : Nat := b / 2 ^ lo % 2 ^ w

/-- Overwrite the `w` bits of `b` starting at bit `lo` with `v` (LSB-first),
as a `modular_bitfield` setter does. -/
def setBits (b lo w v : Nat) : Nat :=
  b % 2 ^ lo + v % 2 ^ w * 2 ^ lo + b / 2 ^ (lo + w) * 2 ^ (lo + w)

/-- Bit encoding of a `Bool` field. -/
def boolBit (v : Bool) : Nat := cond v 1 0

/- Enumerated field specifiers (`#[derive(BitfieldSpecifier)]`).  Each has
its discriminant encoding `toBits` and the decoding `ofBits` of a bit
pattern of its field width, `none` for a pattern with no variant. -/

inductive ChargeStatus where
  | NotCharging | PreCharge | Charge | ChargeDone
deriving DecidableEq, Fintype

def ChargeStatus.toBits : ChargeStatus → Nat
  | .NotCharging => 0 | .PreCharge => 1 | .Charge => 2 | .ChargeDone => 3

def ChargeStatus.ofBits : Nat → Option ChargeStatus
  | 0 => some .NotCharging
  | 1 => some .PreCharge
  | 2 => some .Charge
  | 3 => some .ChargeDone
  | _ => none

inductive ThermalThreshold where
  | T60C | T80C | T100C | T120C
deriving DecidableEq, Fintype

def ThermalThreshold.toBits : ThermalThreshold → Nat
  | .T60C => 0 | .T80C => 1 | .T100C => 2 | .T120C => 3

def ThermalThreshold.ofBits : Nat → Option ThermalThreshold
  | 0 => some .T60C
  | 1 => some .T80C
  | 2 => some .T100C
  | 3 => some .T120C
  | _ => none

inductive SafetyTimerPeriod where
  | P20h | P5h | P8h | P12h
deriving DecidableEq, Fintype

def SafetyTimerPeriod.toBits : SafetyTimerPeriod → Nat
  | .P20h => 0 | .P5h => 1 | .P8h => 2 | .P12h => 3

def SafetyTimerPeriod.ofBits : Nat → Option SafetyTimerPeriod
  | 0 => some .P20h
  | 1 => some .P5h
  | 2 => some .P8h
  | 3 => some .P12h
  | _ => none

inductive WatchdogTimerLimit where
  | Disabled | L40s | L80s | L160s
deriving DecidableEq, Fintype

def WatchdogTimerLimit.toBits : WatchdogTimerLimit → Nat
  | .Disabled => 0 | .L40s => 1 | .L80s => 2 | .L160s => 3

def WatchdogTimerLimit.ofBits : Nat → Option WatchdogTimerLimit
  | 0 => some .Disabled
  | 1 => some .L40s
  | 2 => some .L80s
  | 3 => some .L160s
  | _ => none

inductive RechargeThreshold where
  | U150mV | U300mV
deriving DecidableEq, Fintype

def RechargeThreshold.toBits : RechargeThreshold → Nat
  | .U150mV => 0 | .U300mV => 1

def RechargeThreshold.ofBits : Nat → Option RechargeThreshold
  | 0 => some .U150mV
  | 1 => some .U300mV
  | _ => none

inductive PrechargeThreshold where
  | U2800mV | U3000mV
deriving DecidableEq, Fintype

def PrechargeThreshold.toBits : PrechargeThreshold → Nat
  | .U2800mV => 0 | .U3000mV => 1

def PrechargeThreshold.ofBits : Nat → Option PrechargeThreshold
  | 0 => some .U2800mV
  | 1 => some .U3000mV
  | _ => none

inductive TerminalCurrent where
  | I24mA | I52mA | I80mA | I108mA
deriving DecidableEq, Fintype

def TerminalCurrent.toBits : TerminalCurrent → Nat
  | .I24mA => 0 | .I52mA => 1 | .I80mA => 2 | .I108mA => 3

def TerminalCurrent.ofBits : Nat → Option TerminalCurrent
  | 0 => some .I24mA
  | 1 => some .I52mA
  | 2 => some .I80mA
  | 3 => some .I108mA
  | _ => none

inductive UVLOThreshold where
  | U2400mV | U2500mV | U2600mV | U2700mV
  | U2800mV | U2900mV | U3000mV | U3100mV
deriving DecidableEq, Fintype

def UVLOThreshold.toBits : UVLOThreshold → Nat
  | .U2400mV => 0 | .U2500mV => 1 | .U2600mV => 2 | .U2700mV => 3
  | .U2800mV => 4 | .U2900mV => 5 | .U3000mV => 6 | .U3100mV => 7

def UVLOThreshold.ofBits : Nat → Option UVLOThreshold
  | 0 => some .U2400mV
  | 1 => some .U2500mV
  | 2 => some .U2600mV
  | 3 => some .U2700mV
  | 4 => some .U2800mV
  | 5 => some .U2900mV
  | 6 => some .U3000mV
  | 7 => some .U3100mV
  | _ => none

inductive InputCurrentLimit where
  | I77mA | I118mA | I345mA | I470mA
  | I540mA | I635mA | I734mA | I993mA
deriving DecidableEq, Fintype

def InputCurrentLimit.toBits : InputCurrentLimit → Nat
  | .I77mA => 0 | .I118mA => 1 | .I345mA => 2 | .I470mA => 3
  | .I540mA => 4 | .I635mA => 5 | .I734mA => 6 | .I993mA => 7

def InputCurrentLimit.ofBits : Nat → Option InputCurrentLimit
  | 0 => some .I77mA
  | 1 => some .I118mA
  | 2 => some .I345mA
  | 3 => some .I470mA
  | 4 => some .I540mA
  | 5 => some .I635mA
  | 6 => some .I734mA
  | 7 => some .I993mA
  | _ => none

/- Register types.  Each `#[bitfield]` struct stores its raw byte
(`bytes: [u8; 1]`); here `bytes : Nat` holds that byte.  `from_u8` is the
macro-generated `From<u8>` (`Self::from_bytes([raw])`), `into_u8` the
`From<$Reg> for u8` of RW registers (`reg.into_bytes()[0]`).
`reservedMask` marks the bit positions of the `#[skip]` fields. -/

structure InputSourceControl where
  bytes : Nat
deriving DecidableEq

def InputSourceControl.from_u8 (raw : Nat) : InputSourceControl := ⟨raw⟩

def InputSourceControl.into_u8 (r : InputSourceControl) : Nat := r.bytes

def InputSourceControl.new : InputSourceControl := ⟨0⟩

def InputSourceControl.reservedMask : Nat := 0

def InputSourceControl.input_current_limit (r : InputSourceControl) :
    Option InputCurrentLimit :=
  InputCurrentLimit.ofBits (getBits r.bytes 0 3)

def InputSourceControl.input_minimum_voltage (r : InputSourceControl) : Nat :=
  getBits r.bytes 3 4

def InputSourceControl.ldo_fet_disabled (r : InputSourceControl) : Bool :=
  getBits r.bytes 7 1 == 1

def InputSourceControl.set_input_current_limit (r : InputSourceControl)
    (v : InputCurrentLimit) : InputSourceControl :=
  ⟨setBits r.bytes 0 3 v.toBits⟩

def InputSourceControl.set_input_minimum_voltage (r : InputSourceControl)
    (v : Fin 16) : InputSourceControl :=
  ⟨setBits r.bytes 3 4 v.val⟩

def InputSourceControl.set_ldo_fet_disabled (r : InputSourceControl)
    (v : Bool) : InputSourceControl :=
  ⟨setBits r.bytes 7 1 (boolBit v)⟩

/-- The `Default` impl in `src/registers.rs`: raw byte `0b0100_1011`. -/
def InputSourceControl.default : InputSourceControl := ⟨0b01001011⟩

structure PowerOnConfiguration where
  bytes : Nat
deriving DecidableEq

def PowerOnConfiguration.from_u8 (raw : Nat) : PowerOnConfiguration := ⟨raw⟩

def PowerOnConfiguration.into_u8 (r : PowerOnConfiguration) : Nat := r.bytes

def PowerOnConfiguration.new : PowerOnConfiguration := ⟨0⟩

def PowerOnConfiguration.reservedMask : Nat := 0b00110000

def PowerOnConfiguration.uvlo_threshold (r : PowerOnConfiguration) :
    Option UVLOThreshold :=
  UVLOThreshold.ofBits (getBits r.bytes 0 3)

def PowerOnConfiguration.charge_disabled (r : PowerOnConfiguration) : Bool :=
  getBits r.bytes 3 1 == 1

def PowerOnConfiguration.watchdog_timer_reset (r : PowerOnConfiguration) : Bool :=
  getBits r.bytes 6 1 == 1

def PowerOnConfiguration.settings_reset (r : PowerOnConfiguration) : Bool :=
  getBits r.bytes 7 1 == 1

def PowerOnConfiguration.set_uvlo_threshold (r : PowerOnConfiguration)
    (v : UVLOThreshold) : PowerOnConfiguration :=
  ⟨setBits r.bytes 0 3 v.toBits⟩

def PowerOnConfiguration.set_charge_disabled (r : PowerOnConfiguration)
    (v : Bool) : PowerOnConfiguration :=
  ⟨setBits r.bytes 3 1 (boolBit v)⟩

def PowerOnConfiguration.set_watchdog_timer_reset (r : PowerOnConfiguration)
    (v : Bool) : PowerOnConfiguration :=
  ⟨setBits r.bytes 6 1 (boolBit v)⟩

def PowerOnConfiguration.set_settings_reset (r : PowerOnConfiguration)
    (v : Bool) : PowerOnConfiguration :=
  ⟨setBits r.bytes 7 1 (boolBit v)⟩

/-- The `Default` impl in `src/registers.rs`: raw byte `0b0000_0100`. -/
def PowerOnConfiguration.default : PowerOnConfiguration := ⟨0b00000100⟩

structure ChargeCurrentControl where
  bytes : Nat
deriving DecidableEq

def ChargeCurrentControl.from_u8 (raw : Nat) : ChargeCurrentControl := ⟨raw⟩

def ChargeCurrentControl.into_u8 (r : ChargeCurrentControl) : Nat := r.bytes

def ChargeCurrentControl.new : ChargeCurrentControl := ⟨0⟩

def ChargeCurrentControl.reservedMask : Nat := 0b11100000

def ChargeCurrentControl.charge_current (r : ChargeCurrentControl) : Nat :=
  getBits r.bytes 0 5

def ChargeCurrentControl.set_charge_current (r : ChargeCurrentControl)
    (v : Fin 32) : ChargeCurrentControl :=
  ⟨setBits r.bytes 0 5 v.val⟩

/-- The `Default` impl in `src/registers.rs`: raw byte `0b0000_0111`. -/
def ChargeCurrentControl.default : ChargeCurrentControl := ⟨0b00000111⟩

structure DischargeAndTerminationCurrent where
  bytes : Nat
deriving DecidableEq

def DischargeAndTerminationCurrent.from_u8 (raw : Nat) :
    DischargeAndTerminationCurrent := ⟨raw⟩

def DischargeAndTerminationCurrent.into_u8
    (r : DischargeAndTerminationCurrent) : Nat := r.bytes

def DischargeAndTerminationCurrent.new : DischargeAndTerminationCurrent := ⟨0⟩

def DischargeAndTerminationCurrent.reservedMask : Nat := 0b10000100

def DischargeAndTerminationCurrent.terminal_current
    (r : DischargeAndTerminationCurrent) : Option TerminalCurrent :=
  TerminalCurrent.ofBits (getBits r.bytes 0 2)

def DischargeAndTerminationCurrent.discharge_current_limit
    (r : DischargeAndTerminationCurrent) : Nat :=
  getBits r.bytes 3 4

def DischargeAndTerminationCurrent.set_terminal_current
    (r : DischargeAndTerminationCurrent) (v : TerminalCurrent) :
    DischargeAndTerminationCurrent :=
  ⟨setBits r.bytes 0 2 v.toBits⟩

def DischargeAndTerminationCurrent.set_discharge_current_limit
    (r : DischargeAndTerminationCurrent) (v : Fin 16) :
    DischargeAndTerminationCurrent :=
  ⟨setBits r.bytes 3 4 v.val⟩

/-- The `Default` impl in `src/registers.rs`: raw byte `0b0100_1001`. -/
def DischargeAndTerminationCurrent.default : DischargeAndTerminationCurrent :=
  ⟨0b01001001⟩

structure ChargeVoltageControl where
  bytes : Nat
deriving DecidableEq

def ChargeVoltageControl.from_u8 (raw : Nat) : ChargeVoltageControl := ⟨raw⟩

def ChargeVoltageControl.into_u8 (r : ChargeVoltageControl) : Nat := r.bytes

def ChargeVoltageControl.new : ChargeVoltageControl := ⟨0⟩

def ChargeVoltageControl.reservedMask : Nat := 0

def ChargeVoltageControl.recharge_threshold (r : ChargeVoltageControl) :
    Option RechargeThreshold :=
  RechargeThreshold.ofBits (getBits r.bytes 0 1)

def ChargeVoltageControl.precharge_threshold (r : ChargeVoltageControl) :
    Option PrechargeThreshold :=
  PrechargeThreshold.ofBits (getBits r.bytes 1 1)

def ChargeVoltageControl.regulation_voltage (r : ChargeVoltageControl) : Nat :=
  getBits r.bytes 2 6

def ChargeVoltageControl.set_recharge_threshold (r : ChargeVoltageControl)
    (v : RechargeThreshold) : ChargeVoltageControl :=
  ⟨setBits r.bytes 0 1 v.toBits⟩

def ChargeVoltageControl.set_precharge_threshold (r : ChargeVoltageControl)
    (v : PrechargeThreshold) : ChargeVoltageControl :=
  ⟨setBits r.bytes 1 1 v.toBits⟩

def ChargeVoltageControl.set_regulation_voltage (r : ChargeVoltageControl)
    (v : Fin 64) : ChargeVoltageControl :=
  ⟨setBits r.bytes 2 6 v.val⟩

/-- The `Default` impl in `src/registers.rs`: raw byte `0b1010_0011`. -/
def ChargeVoltageControl.default : ChargeVoltageControl := ⟨0b10100011⟩

structure ChargeTerminationAndTimerControl where
  bytes : Nat
deriving DecidableEq

def ChargeTerminationAndTimerControl.from_u8 (raw : Nat) :
    ChargeTerminationAndTimerControl := ⟨raw⟩

def ChargeTerminationAndTimerControl.into_u8
    (r : ChargeTerminationAndTimerControl) : Nat := r.bytes

def ChargeTerminationAndTimerControl.new : ChargeTerminationAndTimerControl :=
  ⟨0⟩

def ChargeTerminationAndTimerControl.reservedMask : Nat := 0b10000000

def ChargeTerminationAndTimerControl.termination_control_enabled
    (r : ChargeTerminationAndTimerControl) : Bool :=
  getBits r.bytes 0 1 == 1

def ChargeTerminationAndTimerControl.timer_period
    (r : ChargeTerminationAndTimerControl) : Option SafetyTimerPeriod :=
  SafetyTimerPeriod.ofBits (getBits r.bytes 1 2)

def ChargeTerminationAndTimerControl.timer_enabled
    (r : ChargeTerminationAndTimerControl) : Bool :=
  getBits r.bytes 3 1 == 1

def ChargeTerminationAndTimerControl.timer_limit
    (r : ChargeTerminationAndTimerControl) : Option WatchdogTimerLimit :=
  WatchdogTimerLimit.ofBits (getBits r.bytes 4 2)

def ChargeTerminationAndTimerControl.termination_enabled
    (r : ChargeTerminationAndTimerControl) : Bool :=
  getBits r.bytes 6 1 == 1

def ChargeTerminationAndTimerControl.set_termination_control_enabled
    (r : ChargeTerminationAndTimerControl) (v : Bool) :
    ChargeTerminationAndTimerControl :=
  ⟨setBits r.bytes 0 1 (boolBit v)⟩

def ChargeTerminationAndTimerControl.set_timer_period
    (r : ChargeTerminationAndTimerControl) (v : SafetyTimerPeriod) :
    ChargeTerminationAndTimerControl :=
  ⟨setBits r.bytes 1 2 v.toBits⟩

def ChargeTerminationAndTimerControl.set_timer_enabled
    (r : ChargeTerminationAndTimerControl) (v : Bool) :
    ChargeTerminationAndTimerControl :=
  ⟨setBits r.bytes 3 1 (boolBit v)⟩

def ChargeTerminationAndTimerControl.set_timer_limit
    (r : ChargeTerminationAndTimerControl) (v : WatchdogTimerLimit) :
    ChargeTerminationAndTimerControl :=
  ⟨setBits r.bytes 4 2 v.toBits⟩

def ChargeTerminationAndTimerControl.set_termination_enabled
    (r : ChargeTerminationAndTimerControl) (v : Bool) :
    ChargeTerminationAndTimerControl :=
  ⟨setBits r.bytes 6 1 (boolBit v)⟩

/-- The `Default` impl in `src/registers.rs`: raw byte `0b0100_1010`. -/
def ChargeTerminationAndTimerControl.default :
    ChargeTerminationAndTimerControl := ⟨0b01001010⟩

structure MiscellaneousOperationControl where
  bytes : Nat
deriving DecidableEq

def MiscellaneousOperationControl.from_u8 (raw : Nat) :
    MiscellaneousOperationControl := ⟨raw⟩

def MiscellaneousOperationControl.into_u8
    (r : MiscellaneousOperationControl) : Nat := r.bytes

def MiscellaneousOperationControl.new : MiscellaneousOperationControl := ⟨0⟩

def MiscellaneousOperationControl.reservedMask : Nat := 0b10010100

def MiscellaneousOperationControl.thermal_regulation_threshold
    (r : MiscellaneousOperationControl) : Option ThermalThreshold :=
  ThermalThreshold.ofBits (getBits r.bytes 0 2)

def MiscellaneousOperationControl.ntc_enabled
    (r : MiscellaneousOperationControl) : Bool :=
  getBits r.bytes 3 1 == 1

def MiscellaneousOperationControl.battery_fet_disabled
    (r : MiscellaneousOperationControl) : Bool :=
  getBits r.bytes 5 1 == 1

def MiscellaneousOperationControl.extended_safety_timer
    (r : MiscellaneousOperationControl) : Bool :=
  getBits r.bytes 6 1 == 1

def MiscellaneousOperationControl.set_thermal_regulation_threshold
    (r : MiscellaneousOperationControl) (v : ThermalThreshold) :
    MiscellaneousOperationControl :=
  ⟨setBits r.bytes 0 2 v.toBits⟩

def MiscellaneousOperationControl.set_ntc_enabled
    (r : MiscellaneousOperationControl) (v : Bool) :
    MiscellaneousOperationControl :=
  ⟨setBits r.bytes 3 1 (boolBit v)⟩

def MiscellaneousOperationControl.set_battery_fet_disabled
    (r : MiscellaneousOperationControl) (v : Bool) :
    MiscellaneousOperationControl :=
  ⟨setBits r.bytes 5 1 (boolBit v)⟩

def MiscellaneousOperationControl.set_extended_safety_timer
    (r : MiscellaneousOperationControl) (v : Bool) :
    MiscellaneousOperationControl :=
  ⟨setBits r.bytes 6 1 (boolBit v)⟩

/-- The `Default` impl in `src/registers.rs`: raw byte `0b0000_1011`. -/
def MiscellaneousOperationControl.default : MiscellaneousOperationControl :=
  ⟨0b00001011⟩

structure SystemStatus where
  bytes : Nat
deriving DecidableEq

def SystemStatus.from_u8 (raw : Nat) : SystemStatus := ⟨raw⟩

def SystemStatus.new : SystemStatus := ⟨0⟩

def SystemStatus.reservedMask : Nat := 0b10000000

def SystemStatus.thermal_regulation (r : SystemStatus) : Bool :=
  getBits r.bytes 0 1 == 1

def SystemStatus.power_good (r : SystemStatus) : Bool :=
  getBits r.bytes 1 1 == 1

def SystemStatus.power_path_enabled (r : SystemStatus) : Bool :=
  getBits r.bytes 2 1 == 1

def SystemStatus.charge_status (r : SystemStatus) : Option ChargeStatus :=
  ChargeStatus.ofBits (getBits r.bytes 3 2)

def SystemStatus.revision (r : SystemStatus) : Nat :=
  getBits r.bytes 5 2

structure FaultFlags where
  bytes : Nat
deriving DecidableEq

def FaultFlags.from_u8 (raw : Nat) : FaultFlags := ⟨raw⟩

def FaultFlags.new : FaultFlags := ⟨0⟩

def FaultFlags.reservedMask : Nat := 0b10000011

def FaultFlags.safety_timer_expired (r : FaultFlags) : Bool :=
  getBits r.bytes 2 1 == 1

def FaultFlags.battery_fault (r : FaultFlags) : Bool :=
  getBits r.bytes 3 1 == 1

def FaultFlags.thermal_shutdown (r : FaultFlags) : Bool :=
  getBits r.bytes 4 1 == 1

def FaultFlags.input_fault (r : FaultFlags) : Bool :=
  getBits r.bytes 5 1 == 1

def FaultFlags.watchdog_timer_expired (r : FaultFlags) : Bool :=
  getBits r.bytes 6 1 == 1

/- Bus transaction layer.  The `embedded-hal` blocking i2c transport is a
record of the two capabilities the driver uses; an operation's issued bus
transactions are returned alongside its result. -/

/-- One i2c bus transaction: a plain write of `data` to the 7-bit device
address, or a combined write-then-read that writes `out` and then reads
`readLen` bytes. -/
inductive Transaction where
  | write (devAddr : Nat) (data : List Nat)
  | writeRead (devAddr : Nat) (out : List Nat) (readLen : Nat)
deriving DecidableEq

/-- A blocking i2c transport.  `writeRead a out n` returns the `n` bytes
read (the filled buffer) or the transport's error; `write a data` returns
unit or the transport's error. -/
structure I2CBus (E : Type) where
  writeRead : Nat → List Nat → Nat → Except E (List Nat)
  write : Nat → List Nat → Except E Unit

/-- `pub const I2C_ADDR: u8 = 0x09` in `src/lib.rs`. -/
def I2C_ADDR : Nat := 0x09

/-- `ReadOnlyRegister::read` (`src/macros.rs`): allocate a 1-byte buffer
initialised to 0, issue `i2c.write_read(I2C_ADDR, &[Self::ADDR], buf)`,
and on success decode `buf[0]`.  Returns the result together with the
transactions issued. -/
def registerRead {E R : Type} (bus : I2CBus E) (addr : Nat)
    (decode : Nat → R) : Except E R × List Transaction :=
  (match bus.writeRead I2C_ADDR [addr] 1 with
    | Except.error e => Except.error e
    | Except.ok buf => Except.ok (decode (buf.headD 0)),
   [Transaction.writeRead I2C_ADDR [addr] 1])

/-- `ReadWriteRegister::write` (`src/macros.rs`):
`i2c.write(I2C_ADDR, &[Self::ADDR, self.into()])`.  Returns the result
together with the transactions issued. -/
def registerWrite {E : Type} (bus : I2CBus E) (addr encoded : Nat) :
    Except E Unit × List Transaction :=
  (bus.write I2C_ADDR [addr, encoded],
   [Transaction.write I2C_ADDR [addr, encoded]])

/-- The driver struct: owns the i2c transport handle, no other state. -/
structure MP2667 (E : Type) where
  i2c : I2CBus E

def MP2667.new {E : Type} (i2c : I2CBus E) : MP2667 E := ⟨i2c⟩

def MP2667.get_input_source {E : Type} (d : MP2667 E) :
    Except E InputSourceControl × List Transaction :=
  registerRead d.i2c 0x00 InputSourceControl.from_u8

def MP2667.set_input_source {E : Type} (d : MP2667 E)
    (ctrl : InputSourceControl) : Except E Unit × List Transaction :=
  registerWrite d.i2c 0x00 ctrl.into_u8

def MP2667.get_power_on_config {E : Type} (d : MP2667 E) :
    Except E PowerOnConfiguration × List Transaction :=
  registerRead d.i2c 0x01 PowerOnConfiguration.from_u8

def MP2667.set_power_on_config {E : Type} (d : MP2667 E)
    (cfg : PowerOnConfiguration) : Except E Unit × List Transaction :=
  registerWrite d.i2c 0x01 cfg.into_u8

def MP2667.get_charge_current_control {E : Type} (d : MP2667 E) :
    Except E ChargeCurrentControl × List Transaction :=
  registerRead d.i2c 0x02 ChargeCurrentControl.from_u8

def MP2667.set_charge_current_control {E : Type} (d : MP2667 E)
    (cfg : ChargeCurrentControl) : Except E Unit × List Transaction :=
  registerWrite d.i2c 0x02 cfg.into_u8

def MP2667.get_discharge_and_termination_current {E : Type} (d : MP2667 E) :
    Except E DischargeAndTerminationCurrent × List Transaction :=
  registerRead d.i2c 0x03 DischargeAndTerminationCurrent.from_u8

def MP2667.set_discharge_and_termination_current {E : Type} (d : MP2667 E)
    (cfg : DischargeAndTerminationCurrent) : Except E Unit × List Transaction :=
  registerWrite d.i2c 0x03 cfg.into_u8

def MP2667.get_charge_voltage_control {E : Type} (d : MP2667 E) :
    Except E ChargeVoltageControl × List Transaction :=
  registerRead d.i2c 0x04 ChargeVoltageControl.from_u8

def MP2667.set_charge_voltage_control {E : Type} (d : MP2667 E)
    (cfg : ChargeVoltageControl) : Except E Unit × List Transaction :=
  registerWrite d.i2c 0x04 cfg.into_u8

def MP2667.get_charge_termination_and_timer_control {E : Type}
    (d : MP2667 E) :
    Except E ChargeTerminationAndTimerControl × List Transaction :=
  registerRead d.i2c 0x05 ChargeTerminationAndTimerControl.from_u8

def MP2667.set_charge_termination_and_timer_control {E : Type} (d : MP2667 E)
    (cfg : ChargeTerminationAndTimerControl) :
    Except E Unit × List Transaction :=
  registerWrite d.i2c 0x05 cfg.into_u8

def MP2667.get_miscellaneous_operation_control {E : Type} (d : MP2667 E) :
    Except E MiscellaneousOperationControl × List Transaction :=
  registerRead d.i2c 0x06 MiscellaneousOperationControl.from_u8

def MP2667.set_miscellaneous_operation_control {E : Type} (d : MP2667 E)
    (cfg : MiscellaneousOperationControl) : Except E Unit × List Transaction :=
  registerWrite d.i2c 0x06 cfg.into_u8

def MP2667.get_status {E : Type} (d : MP2667 E) :
    Except E SystemStatus × List Transaction :=
  registerRead d.i2c 0x07 SystemStatus.from_u8

def MP2667.get_faults {E : Type} (d : MP2667 E) :
    Except E FaultFlags × List Transaction :=
  registerRead d.i2c 0x08 FaultFlags.from_u8

/-- The public methods of `impl MP2667` in `src/lib.rs`, one constructor
per method, carrying the method's argument where it takes one.  This is
the whole API surface of the driver. -/
inductive DriverOp where
  | getInputSource
  | setInputSource (v : InputSourceControl)
  | getPowerOnConfig
  | setPowerOnConfig (v : PowerOnConfiguration)
  | getChargeCurrentControl
  | setChargeCurrentControl (v : ChargeCurrentControl)
  | getDischargeAndTerminationCurrent
  | setDischargeAndTerminationCurrent (v : DischargeAndTerminationCurrent)
  | getChargeVoltageControl
  | setChargeVoltageControl (v : ChargeVoltageControl)
  | getChargeTerminationAndTimerControl
  | setChargeTerminationAndTimerControl (v : ChargeTerminationAndTimerControl)
  | getMiscellaneousOperationControl
  | setMiscellaneousOperationControl (v : MiscellaneousOperationControl)
  | getStatus
  | getFaults
deriving DecidableEq

/-- The bus transactions an API operation issues (the second component of
the corresponding method). -/
def MP2667.opTrace {E : Type} (d : MP2667 E) : DriverOp → List Transaction
  | .getInputSource => d.get_input_source.2
  | .setInputSource v => (d.set_input_source v).2
  | .getPowerOnConfig => d.get_power_on_config.2
  | .setPowerOnConfig v => (d.set_power_on_config v).2
  | .getChargeCurrentControl => d.get_charge_current_control.2
  | .setChargeCurrentControl v => (d.set_charge_current_control v).2
  | .getDischargeAndTerminationCurrent =>
      d.get_discharge_and_termination_current.2
  | .setDischargeAndTerminationCurrent v =>
      (d.set_discharge_and_termination_current v).2
  | .getChargeVoltageControl => d.get_charge_voltage_control.2
  | .setChargeVoltageControl v => (d.set_charge_voltage_control v).2
  | .getChargeTerminationAndTimerControl =>
      d.get_charge_termination_and_timer_control.2
  | .setChargeTerminationAndTimerControl v =>
      (d.set_charge_termination_and_timer_control v).2
  | .getMiscellaneousOperationControl =>
      d.get_miscellaneous_operation_control.2
  | .setMiscellaneousOperationControl v =>
      (d.set_miscellaneous_operation_control v).2
  | .getStatus => d.get_status.2
  | .getFaults => d.get_faults.2

/-- The names of the public methods of `impl MP2667` in `src/lib.rs`
(lines 29-132), in source order.  The impl block contains exactly these
sixteen methods and nothing else. -/
def MP2667.methodNames : List String :=
  ["new",
   "get_input_source", "set_input_source",
   "get_power_on_config", "set_power_on_config",
   "get_charge_current_control", "set_charge_current_control",
   "get_discharge_and_termination_current",
   "set_discharge_and_termination_current",
   "get_charge_voltage_control", "set_charge_voltage_control",
   "get_charge_termination_and_timer_control",
   "set_charge_termination_and_timer_control",
   "get_miscellaneous_operation_control",
   "set_miscellaneous_operation_control",
   "get_status", "get_faults"]

/-- A transport that always succeeds, answering every read with `0x42`. -/
def okBus : I2CBus Unit :=
  ⟨fun _ _ n => Except.ok (List.replicate n 0x42), fun _ _ => Except.ok ()⟩

/-- A transport that always fails. -/
def errBus : I2CBus Unit :=
  ⟨fun _ _ _ => Except.error (), fun _ _ => Except.error ()⟩

/-- The `into_bytes()[0]` of the `SystemStatus` `#[bitfield]` struct.  The
RO register macro arm generates no `From<SystemStatus> for u8`, but the
struct itself still carries `into_bytes`. -/
def SystemStatus.into_u8 (r : SystemStatus) : Nat := r.bytes

/-- The `into_bytes()[0]` of the `FaultFlags` `#[bitfield]` struct.  The
RO register macro arm generates no `From<FaultFlags> for u8`, but the
struct itself still carries `into_bytes`. -/
def FaultFlags.into_u8 (r : FaultFlags) : Nat := r.bytes

/- A register value built from the generated zero constructor (`new`) by
setting every non-reserved field, one builder per RW register: the
representable field combinations of the claim statements. -/

def InputSourceControl.ofFields (l : InputCurrentLimit) (mv : Fin 16)
    (ld : Bool) : InputSourceControl :=
  ((InputSourceControl.new.set_input_current_limit
      l).set_input_minimum_voltage mv).set_ldo_fet_disabled ld

def PowerOnConfiguration.ofFields (u : UVLOThreshold) (cd wr sr : Bool) :
    PowerOnConfiguration :=
  (((PowerOnConfiguration.new.set_uvlo_threshold u).set_charge_disabled
      cd).set_watchdog_timer_reset wr).set_settings_reset sr

def ChargeCurrentControl.ofFields (c : Fin 32) : ChargeCurrentControl :=
  ChargeCurrentControl.new.set_charge_current c

def DischargeAndTerminationCurrent.ofFields (t : TerminalCurrent)
    (dl : Fin 16) : DischargeAndTerminationCurrent :=
  (DischargeAndTerminationCurrent.new.set_terminal_current
      t).set_discharge_current_limit dl

def ChargeVoltageControl.ofFields (rt : RechargeThreshold)
    (pt : PrechargeThreshold) (rv : Fin 64) : ChargeVoltageControl :=
  ((ChargeVoltageControl.new.set_recharge_threshold
      rt).set_precharge_threshold pt).set_regulation_voltage rv

def ChargeTerminationAndTimerControl.ofFields (tce : Bool)
    (tp : SafetyTimerPeriod) (te : Bool) (tl : WatchdogTimerLimit)
    (tme : Bool) : ChargeTerminationAndTimerControl :=
  ((((ChargeTerminationAndTimerControl.new.set_termination_control_enabled
      tce).set_timer_period tp).set_timer_enabled te).set_timer_limit
      tl).set_termination_enabled tme

def MiscellaneousOperationControl.ofFields (tt : ThermalThreshold)
    (ntc bfd est : Bool) : MiscellaneousOperationControl :=
  (((MiscellaneousOperationControl.new.set_thermal_regulation_threshold
      tt).set_ntc_enabled ntc).set_battery_fet_disabled
      bfd).set_extended_safety_timer est

/-! Helper lemmas about the generic read/write plumbing. -/

theorem registerRead_trace {E R : Type} (bus : I2CBus E) (addr : Nat)
    (decode : Nat → R) :
    (registerRead bus addr decode).2 =
      [Transaction.writeRead I2C_ADDR [addr] 1] := rfl

theorem registerRead_ok {E R : Type} (bus : I2CBus E) (addr : Nat)
    (decode : Nat → R) (buf : List Nat)
    (h : bus.writeRead I2C_ADDR [addr] 1 = Except.ok buf) :
    (registerRead bus addr decode).1 = Except.ok (decode (buf.headD 0)) := by
  simp [registerRead, h]

theorem registerRead_err {E R : Type} (bus : I2CBus E) (addr : Nat)
    (decode : Nat → R) (e : E)
    (h : bus.writeRead I2C_ADDR [addr] 1 = Except.error e) :
    (registerRead bus addr decode).1 = Except.error e := by
  simp [registerRead, h]

/-- C1: every `get_R` issues exactly one write-then-read transaction at the
fixed 7-bit device address `0x09`, writing the single byte that is R's
register address (`InputSourceControl` `0x00` through `FaultFlags` `0x08`),
reading exactly one byte into a buffer, and returning the decode of that
byte. -/
theorem get_ops_issue_one_write_read_and_decode :
    ∀ (E : Type) (bus : I2CBus E),
      (((MP2667.new bus).get_input_source).2 =
          [Transaction.writeRead 0x09 [0x00] 1] ∧
        ∀ buf : List Nat, bus.writeRead 0x09 [0x00] 1 = Except.ok buf →
          ((MP2667.new bus).get_input_source).1 =
            Except.ok (InputSourceControl.from_u8 (buf.headD 0))) ∧
      (((MP2667.new bus).get_power_on_config).2 =
          [Transaction.writeRead 0x09 [0x01] 1] ∧
        ∀ buf : List Nat, bus.writeRead 0x09 [0x01] 1 = Except.ok buf →
          ((MP2667.new bus).get_power_on_config).1 =
            Except.ok (PowerOnConfiguration.from_u8 (buf.headD 0))) ∧
      (((MP2667.new bus).get_charge_current_control).2 =
          [Transaction.writeRead 0x09 [0x02] 1] ∧
        ∀ buf : List Nat, bus.writeRead 0x09 [0x02] 1 = Except.ok buf →
          ((MP2667.new bus).get_charge_current_control).1 =
            Except.ok (ChargeCurrentControl.from_u8 (buf.headD 0))) ∧
      (((MP2667.new bus).get_discharge_and_termination_current).2 =
          [Transaction.writeRead 0x09 [0x03] 1] ∧
        ∀ buf : List Nat, bus.writeRead 0x09 [0x03] 1 = Except.ok buf →
          ((MP2667.new bus).get_discharge_and_termination_current).1 =
            Except.ok (DischargeAndTerminationCurrent.from_u8 (buf.headD 0))) ∧
      (((MP2667.new bus).get_charge_voltage_control).2 =
          [Transaction.writeRead 0x09 [0x04] 1] ∧
        ∀ buf : List Nat, bus.writeRead 0x09 [0x04] 1 = Except.ok buf →
          ((MP2667.new bus).get_charge_voltage_control).1 =
            Except.ok (ChargeVoltageControl.from_u8 (buf.headD 0))) ∧
      (((MP2667.new bus).get_charge_termination_and_timer_control).2 =
          [Transaction.writeRead 0x09 [0x05] 1] ∧
        ∀ buf : List Nat, bus.writeRead 0x09 [0x05] 1 = Except.ok buf →
          ((MP2667.new bus).get_charge_termination_and_timer_control).1 =
            Except.ok (ChargeTerminationAndTimerControl.from_u8 (buf.headD 0))) ∧
      (((MP2667.new bus).get_miscellaneous_operation_control).2 =
          [Transaction.writeRead 0x09 [0x06] 1] ∧
        ∀ buf : List Nat, bus.writeRead 0x09 [0x06] 1 = Except.ok buf →
          ((MP2667.new bus).get_miscellaneous_operation_control).1 =
            Except.ok (MiscellaneousOperationControl.from_u8 (buf.headD 0))) ∧
      (((MP2667.new bus).get_status).2 =
          [Transaction.writeRead 0x09 [0x07] 1] ∧
        ∀ buf : List Nat, bus.writeRead 0x09 [0x07] 1 = Except.ok buf →
          ((MP2667.new bus).get_status).1 =
            Except.ok (SystemStatus.from_u8 (buf.headD 0))) ∧
      (((MP2667.new bus).get_faults).2 =
          [Transaction.writeRead 0x09 [0x08] 1] ∧
        ∀ buf : List Nat, bus.writeRead 0x09 [0x08] 1 = Except.ok buf →
          ((MP2667.new bus).get_faults).1 =
            Except.ok (FaultFlags.from_u8 (buf.headD 0))) := by
  intro E bus
  exact ⟨⟨rfl, fun buf h => registerRead_ok bus _ _ buf h⟩,
    ⟨rfl, fun buf h => registerRead_ok bus _ _ buf h⟩,
    ⟨rfl, fun buf h => registerRead_ok bus _ _ buf h⟩,
    ⟨rfl, fun buf h => registerRead_ok bus _ _ buf h⟩,
    ⟨rfl, fun buf h => registerRead_ok bus _ _ buf h⟩,
    ⟨rfl, fun buf h => registerRead_ok bus _ _ buf h⟩,
    ⟨rfl, fun buf h => registerRead_ok bus _ _ buf h⟩,
    ⟨rfl, fun buf h => registerRead_ok bus _ _ buf h⟩,
    ⟨rfl, fun buf h => registerRead_ok bus _ _ buf h⟩⟩

/-- C1 witness: on a transport that answers every read with `0x42`, the
first and last getters return the decode of `0x42` and issue the single
documented write-then-read transaction. -/
theorem get_ops_issue_one_write_read_and_decode_witness :
    ((MP2667.new okBus).get_input_source).1 =
        Except.ok (InputSourceControl.from_u8 0x42) ∧
      ((MP2667.new okBus).get_faults).1 =
        Except.ok (FaultFlags.from_u8 0x42) ∧
      ((MP2667.new okBus).get_status).2 =
        [Transaction.writeRead 0x09 [0x07] 1] := by
  have h := get_ops_issue_one_write_read_and_decode Unit okBus
  exact ⟨h.1.2 [0x42] rfl,
    h.2.2.2.2.2.2.2.2.2 [0x42] rfl,
    h.2.2.2.2.2.2.2.1.1⟩

/-- C2: every `set_R v` issues exactly one write transaction at the fixed
7-bit device address `0x09` whose payload is exactly the two bytes
register address, encoded value. -/
theorem set_ops_issue_one_two_byte_write :
    ∀ (E : Type) (bus : I2CBus E),
      (∀ v : InputSourceControl,
        ((MP2667.new bus).set_input_source v).2 =
          [Transaction.write 0x09 [0x00, v.into_u8]]) ∧
      (∀ v : PowerOnConfiguration,
        ((MP2667.new bus).set_power_on_config v).2 =
          [Transaction.write 0x09 [0x01, v.into_u8]]) ∧
      (∀ v : ChargeCurrentControl,
        ((MP2667.new bus).set_charge_current_control v).2 =
          [Transaction.write 0x09 [0x02, v.into_u8]]) ∧
      (∀ v : DischargeAndTerminationCurrent,
        ((MP2667.new bus).set_discharge_and_termination_current v).2 =
          [Transaction.write 0x09 [0x03, v.into_u8]]) ∧
      (∀ v : ChargeVoltageControl,
        ((MP2667.new bus).set_charge_voltage_control v).2 =
          [Transaction.write 0x09 [0x04, v.into_u8]]) ∧
      (∀ v : ChargeTerminationAndTimerControl,
        ((MP2667.new bus).set_charge_termination_and_timer_control v).2 =
          [Transaction.write 0x09 [0x05, v.into_u8]]) ∧
      (∀ v : MiscellaneousOperationControl,
        ((MP2667.new bus).set_miscellaneous_operation_control v).2 =
          [Transaction.write 0x09 [0x06, v.into_u8]]) := by
  intro E bus
  exact ⟨fun v => rfl, fun v => rfl, fun v => rfl, fun v => rfl,
    fun v => rfl, fun v => rfl, fun v => rfl⟩

/-- C6: on transport failure the driver returns that exact transport error
unchanged: every getter whose write-then-read fails, and every setter whose
write fails, evaluate to the transport's own error value (no decode is
performed on the error path).  The driver record holds nothing but the
transport handle (`MP2667`), so there is no driver state a failed call
could mutate; a failed `set_R` leaves no trace beyond its single bus
transaction. -/
theorem transport_errors_propagate_unchanged :
    ∀ (E : Type) (bus : I2CBus E) (e : E),
      (bus.writeRead 0x09 [0x00] 1 = Except.error e →
        ((MP2667.new bus).get_input_source).1 = Except.error e) ∧
      (bus.writeRead 0x09 [0x01] 1 = Except.error e →
        ((MP2667.new bus).get_power_on_config).1 = Except.error e) ∧
      (bus.writeRead 0x09 [0x02] 1 = Except.error e →
        ((MP2667.new bus).get_charge_current_control).1 = Except.error e) ∧
      (bus.writeRead 0x09 [0x03] 1 = Except.error e →
        ((MP2667.new bus).get_discharge_and_termination_current).1 =
          Except.error e) ∧
      (bus.writeRead 0x09 [0x04] 1 = Except.error e →
        ((MP2667.new bus).get_charge_voltage_control).1 = Except.error e) ∧
      (bus.writeRead 0x09 [0x05] 1 = Except.error e →
        ((MP2667.new bus).get_charge_termination_and_timer_control).1 =
          Except.error e) ∧
      (bus.writeRead 0x09 [0x06] 1 = Except.error e →
        ((MP2667.new bus).get_miscellaneous_operation_control).1 =
          Except.error e) ∧
      (bus.writeRead 0x09 [0x07] 1 = Except.error e →
        ((MP2667.new bus).get_status).1 = Except.error e) ∧
      (bus.writeRead 0x09 [0x08] 1 = Except.error e →
        ((MP2667.new bus).get_faults).1 = Except.error e) ∧
      (∀ v : InputSourceControl,
        bus.write 0x09 [0x00, v.into_u8] = Except.error e →
          ((MP2667.new bus).set_input_source v).1 = Except.error e) ∧
      (∀ v : PowerOnConfiguration,
        bus.write 0x09 [0x01, v.into_u8] = Except.error e →
          ((MP2667.new bus).set_power_on_config v).1 = Except.error e) ∧
      (∀ v : ChargeCurrentControl,
        bus.write 0x09 [0x02, v.into_u8] = Except.error e →
          ((MP2667.new bus).set_charge_current_control v).1 =
            Except.error e) ∧
      (∀ v : DischargeAndTerminationCurrent,
        bus.write 0x09 [0x03, v.into_u8] = Except.error e →
          ((MP2667.new bus).set_discharge_and_termination_current v).1 =
            Except.error e) ∧
      (∀ v : ChargeVoltageControl,
        bus.write 0x09 [0x04, v.into_u8] = Except.error e →
          ((MP2667.new bus).set_charge_voltage_control v).1 =
            Except.error e) ∧
      (∀ v : ChargeTerminationAndTimerControl,
        bus.write 0x09 [0x05, v.into_u8] = Except.error e →
          ((MP2667.new bus).set_charge_termination_and_timer_control v).1 =
            Except.error e) ∧
      (∀ v : MiscellaneousOperationControl,
        bus.write 0x09 [0x06, v.into_u8] = Except.error e →
          ((MP2667.new bus).set_miscellaneous_operation_control v).1 =
            Except.error e) := by
  intro E bus e
  exact ⟨fun h => registerRead_err bus _ _ e h,
    fun h => registerRead_err bus _ _ e h,
    fun h => registerRead_err bus _ _ e h,
    fun h => registerRead_err bus _ _ e h,
    fun h => registerRead_err bus _ _ e h,
    fun h => registerRead_err bus _ _ e h,
    fun h => registerRead_err bus _ _ e h,
    fun h => registerRead_err bus _ _ e h,
    fun h => registerRead_err bus _ _ e h,
    fun v h => h, fun v h => h, fun v h => h, fun v h => h,
    fun v h => h, fun v h => h, fun v h => h⟩

/-- C6 witness: on the always-failing transport, a getter and a setter
both surface the transport's error value. -/
theorem transport_errors_propagate_unchanged_witness :
    ((MP2667.new errBus).get_input_source).1 = Except.error () ∧
      ((MP2667.new errBus).set_charge_current_control ⟨0x07⟩).1 =
        Except.error () := by
  have h := transport_errors_propagate_unchanged Unit errBus ()
  exact ⟨h.1 rfl, h.2.2.2.2.2.2.2.2.2.2.2.1 ⟨0x07⟩ rfl⟩

/-- C7: no operation of the driver API ever issues a plain bus write
transaction whose first payload byte is `0x07` (`SystemStatus`) or `0x08`
(`FaultFlags`): for the two read-only registers only a getter exists (its
write-then-read carries the address only in its read setup), and every
setter targets one of the RW addresses `0x00`-`0x06`. -/
theorem no_write_to_read_only_registers :
    ∀ (E : Type) (d : MP2667 E) (op : DriverOp) (t : Transaction),
      t ∈ d.opTrace op →
      ∀ (a : Nat) (rest : List Nat), t = Transaction.write 0x09 (a :: rest) →
        a ≠ 0x07 ∧ a ≠ 0x08 := by
  intro E d op t ht a rest heq
  cases op <;>
    simp only [MP2667.opTrace, MP2667.set_input_source,
      MP2667.set_power_on_config, MP2667.set_charge_current_control,
      MP2667.set_discharge_and_termination_current,
      MP2667.set_charge_voltage_control,
      MP2667.set_charge_termination_and_timer_control,
      MP2667.set_miscellaneous_operation_control,
      MP2667.get_input_source, MP2667.get_power_on_config,
      MP2667.get_charge_current_control,
      MP2667.get_discharge_and_termination_current,
      MP2667.get_charge_voltage_control,
      MP2667.get_charge_termination_and_timer_control,
      MP2667.get_miscellaneous_operation_control,
      MP2667.get_status, MP2667.get_faults,
      registerRead, registerWrite, List.mem_singleton] at ht <;>
    subst ht <;>
    simp only [Transaction.write.injEq, Transaction.writeRead.injEq,
      List.cons.injEq, reduceCtorEq] at heq <;>
    omega

/-- C7 witness: the write transaction issued by `set_input_source` on a
zero-valued register carries address `0x00`, which is neither `0x07` nor
`0x08`. -/
theorem no_write_to_read_only_registers_witness :
    (0 : Nat) ≠ 0x07 ∧ (0 : Nat) ≠ 0x08 :=
  no_write_to_read_only_registers Unit (MP2667.new okBus)
    (DriverOp.setInputSource ⟨0⟩) (Transaction.write 0x09 [0x00, 0])
    (List.mem_singleton.mpr rfl) 0 [0] rfl

/-- C3: for every register type, for every byte `b` in `0..=255` whose
reserved bit positions are all 0, `encode(decode(b)) = b`.  (In the code
`from_bytes`/`into_bytes` store and return the raw byte, so the identity
holds on the canonical value set.) -/
theorem encode_decode_identity_on_canonical_bytes :
    ∀ b : Fin 256,
      (b.val &&& InputSourceControl.reservedMask = 0 →
        (InputSourceControl.from_u8 b.val).into_u8 = b.val) ∧
      (b.val &&& PowerOnConfiguration.reservedMask = 0 →
        (PowerOnConfiguration.from_u8 b.val).into_u8 = b.val) ∧
      (b.val &&& ChargeCurrentControl.reservedMask = 0 →
        (ChargeCurrentControl.from_u8 b.val).into_u8 = b.val) ∧
      (b.val &&& DischargeAndTerminationCurrent.reservedMask = 0 →
        (DischargeAndTerminationCurrent.from_u8 b.val).into_u8 = b.val) ∧
      (b.val &&& ChargeVoltageControl.reservedMask = 0 →
        (ChargeVoltageControl.from_u8 b.val).into_u8 = b.val) ∧
      (b.val &&& ChargeTerminationAndTimerControl.reservedMask = 0 →
        (ChargeTerminationAndTimerControl.from_u8 b.val).into_u8 = b.val) ∧
      (b.val &&& MiscellaneousOperationControl.reservedMask = 0 →
        (MiscellaneousOperationControl.from_u8 b.val).into_u8 = b.val) ∧
      (b.val &&& SystemStatus.reservedMask = 0 →
        (SystemStatus.from_u8 b.val).into_u8 = b.val) ∧
      (b.val &&& FaultFlags.reservedMask = 0 →
        (FaultFlags.from_u8 b.val).into_u8 = b.val) := by
  intro b
  exact ⟨fun h => rfl, fun h => rfl, fun h => rfl, fun h => rfl,
    fun h => rfl, fun h => rfl, fun h => rfl, fun h => rfl, fun h => rfl⟩

/-- C3 witness: `0x1F` has all reserved bits of `ChargeCurrentControl`
(mask `0b1110_0000`) clear, and the round trip returns it unchanged. -/
theorem encode_decode_identity_on_canonical_bytes_witness :
    (0x1F &&& ChargeCurrentControl.reservedMask = 0) ∧
      (ChargeCurrentControl.from_u8 0x1F).into_u8 = 0x1F :=
  ⟨by decide,
    (encode_decode_identity_on_canonical_bytes ⟨0x1F, by decide⟩).2.2.1
      (by decide)⟩

/-- C4: for every RW register type and every representable combination of
field values, decoding the encoded byte reconstructs exactly the same
register value, whose getters return exactly the field values set; encode
(`into_bytes`) is total, rejecting no input. -/
theorem decode_encode_roundtrip_on_field_values :
    (∀ (l : InputCurrentLimit) (mv : Fin 16) (ld : Bool),
      InputSourceControl.from_u8 (InputSourceControl.ofFields l mv ld).into_u8 =
          InputSourceControl.ofFields l mv ld ∧
        (InputSourceControl.ofFields l mv ld).input_current_limit = some l ∧
        (InputSourceControl.ofFields l mv ld).input_minimum_voltage = mv.val ∧
        (InputSourceControl.ofFields l mv ld).ldo_fet_disabled = ld) ∧
    (∀ (u : UVLOThreshold) (cd wr sr : Bool),
      PowerOnConfiguration.from_u8
            (PowerOnConfiguration.ofFields u cd wr sr).into_u8 =
          PowerOnConfiguration.ofFields u cd wr sr ∧
        (PowerOnConfiguration.ofFields u cd wr sr).uvlo_threshold = some u ∧
        (PowerOnConfiguration.ofFields u cd wr sr).charge_disabled = cd ∧
        (PowerOnConfiguration.ofFields u cd wr sr).watchdog_timer_reset = wr ∧
        (PowerOnConfiguration.ofFields u cd wr sr).settings_reset = sr) ∧
    (∀ c : Fin 32,
      ChargeCurrentControl.from_u8 (ChargeCurrentControl.ofFields c).into_u8 =
          ChargeCurrentControl.ofFields c ∧
        (ChargeCurrentControl.ofFields c).charge_current = c.val) ∧
    (∀ (t : TerminalCurrent) (dl : Fin 16),
      DischargeAndTerminationCurrent.from_u8
            (DischargeAndTerminationCurrent.ofFields t dl).into_u8 =
          DischargeAndTerminationCurrent.ofFields t dl ∧
        (DischargeAndTerminationCurrent.ofFields t dl).terminal_current =
          some t ∧
        (DischargeAndTerminationCurrent.ofFields t dl).discharge_current_limit =
          dl.val) ∧
    (∀ (rt : RechargeThreshold) (pt : PrechargeThreshold) (rv : Fin 64),
      ChargeVoltageControl.from_u8
            (ChargeVoltageControl.ofFields rt pt rv).into_u8 =
          ChargeVoltageControl.ofFields rt pt rv ∧
        (ChargeVoltageControl.ofFields rt pt rv).recharge_threshold =
          some rt ∧
        (ChargeVoltageControl.ofFields rt pt rv).precharge_threshold =
          some pt ∧
        (ChargeVoltageControl.ofFields rt pt rv).regulation_voltage =
          rv.val) ∧
    (∀ (tce : Bool) (tp : SafetyTimerPeriod) (te : Bool)
        (tl : WatchdogTimerLimit) (tme : Bool),
      ChargeTerminationAndTimerControl.from_u8
            (ChargeTerminationAndTimerControl.ofFields tce tp te tl
              tme).into_u8 =
          ChargeTerminationAndTimerControl.ofFields tce tp te tl tme ∧
        (ChargeTerminationAndTimerControl.ofFields tce tp te tl
            tme).termination_control_enabled = tce ∧
        (ChargeTerminationAndTimerControl.ofFields tce tp te tl
            tme).timer_period = some tp ∧
        (ChargeTerminationAndTimerControl.ofFields tce tp te tl
            tme).timer_enabled = te ∧
        (ChargeTerminationAndTimerControl.ofFields tce tp te tl
            tme).timer_limit = some tl ∧
        (ChargeTerminationAndTimerControl.ofFields tce tp te tl
            tme).termination_enabled = tme) ∧
    (∀ (tt : ThermalThreshold) (ntc bfd est : Bool),
      MiscellaneousOperationControl.from_u8
            (MiscellaneousOperationControl.ofFields tt ntc bfd est).into_u8 =
          MiscellaneousOperationControl.ofFields tt ntc bfd est ∧
        (MiscellaneousOperationControl.ofFields tt ntc bfd
            est).thermal_regulation_threshold = some tt ∧
        (MiscellaneousOperationControl.ofFields tt ntc bfd est).ntc_enabled =
          ntc ∧
        (MiscellaneousOperationControl.ofFields tt ntc bfd
            est).battery_fet_disabled = bfd ∧
        (MiscellaneousOperationControl.ofFields tt ntc bfd
            est).extended_safety_timer = est) := by
  decide

/-- C5 counterexample: the value obtained by decoding the byte `0xFF` into
`ChargeCurrentControl` (reserved bits `0b1110_0000`) encodes back to
`0xFF`, whose reserved bit positions are not 0: `from_bytes`/`into_bytes`
pass reserved bits through unchanged. -/
theorem encode_reserved_bits_counterexample :
    ¬ ((ChargeCurrentControl.from_u8 0xFF).into_u8 &&&
        ChargeCurrentControl.reservedMask = 0) := by
  decide

set_option maxRecDepth 4096 in
/-- C5 amended: for every RW register, a value constructed from the
generated zero constructor by field setters — and each documented default
constant — encodes with 0 in every reserved bit position; but encode
re-emits the stored byte unchanged, so for a value obtained by decoding an
arbitrary byte the reserved bits of the encoding equal those of that
byte rather than 0. -/
theorem encode_reserved_bits_zero_for_constructed_values :
    (∀ (l : InputCurrentLimit) (mv : Fin 16) (ld : Bool),
      (InputSourceControl.ofFields l mv ld).into_u8 &&&
        InputSourceControl.reservedMask = 0) ∧
    (∀ (u : UVLOThreshold) (cd wr sr : Bool),
      (PowerOnConfiguration.ofFields u cd wr sr).into_u8 &&&
        PowerOnConfiguration.reservedMask = 0) ∧
    (∀ c : Fin 32,
      (ChargeCurrentControl.ofFields c).into_u8 &&&
        ChargeCurrentControl.reservedMask = 0) ∧
    (∀ (t : TerminalCurrent) (dl : Fin 16),
      (DischargeAndTerminationCurrent.ofFields t dl).into_u8 &&&
        DischargeAndTerminationCurrent.reservedMask = 0) ∧
    (∀ (rt : RechargeThreshold) (pt : PrechargeThreshold) (rv : Fin 64),
      (ChargeVoltageControl.ofFields rt pt rv).into_u8 &&&
        ChargeVoltageControl.reservedMask = 0) ∧
    (∀ (tce : Bool) (tp : SafetyTimerPeriod) (te : Bool)
        (tl : WatchdogTimerLimit) (tme : Bool),
      (ChargeTerminationAndTimerControl.ofFields tce tp te tl tme).into_u8 &&&
        ChargeTerminationAndTimerControl.reservedMask = 0) ∧
    (∀ (tt : ThermalThreshold) (ntc bfd est : Bool),
      (MiscellaneousOperationControl.ofFields tt ntc bfd est).into_u8 &&&
        MiscellaneousOperationControl.reservedMask = 0) ∧
    (InputSourceControl.default.into_u8 &&&
        InputSourceControl.reservedMask = 0 ∧
      PowerOnConfiguration.default.into_u8 &&&
        PowerOnConfiguration.reservedMask = 0 ∧
      ChargeCurrentControl.default.into_u8 &&&
        ChargeCurrentControl.reservedMask = 0 ∧
      DischargeAndTerminationCurrent.default.into_u8 &&&
        DischargeAndTerminationCurrent.reservedMask = 0 ∧
      ChargeVoltageControl.default.into_u8 &&&
        ChargeVoltageControl.reservedMask = 0 ∧
      ChargeTerminationAndTimerControl.default.into_u8 &&&
        ChargeTerminationAndTimerControl.reservedMask = 0 ∧
      MiscellaneousOperationControl.default.into_u8 &&&
        MiscellaneousOperationControl.reservedMask = 0) ∧
    (∀ b : Fin 256,
      (ChargeCurrentControl.from_u8 b.val).into_u8 &&&
          ChargeCurrentControl.reservedMask =
        b.val &&& ChargeCurrentControl.reservedMask) := by
  decide

set_option maxRecDepth 4096 in
/-- C8: for every register type, decode is total on all 256 byte values:
every enumerated getter yields a defined variant on every byte (each
enumerated field's bit-width exactly covers its variants), so no decode
error or panic path exists. -/
theorem decode_total_on_all_bytes :
    ∀ b : Fin 256,
      ((InputSourceControl.from_u8 b.val).input_current_limit).isSome =
          true ∧
        ((PowerOnConfiguration.from_u8 b.val).uvlo_threshold).isSome = true ∧
        ((DischargeAndTerminationCurrent.from_u8
            b.val).terminal_current).isSome = true ∧
        ((ChargeVoltageControl.from_u8 b.val).recharge_threshold).isSome =
          true ∧
        ((ChargeVoltageControl.from_u8 b.val).precharge_threshold).isSome =
          true ∧
        ((ChargeTerminationAndTimerControl.from_u8
            b.val).timer_period).isSome = true ∧
        ((ChargeTerminationAndTimerControl.from_u8
            b.val).timer_limit).isSome = true ∧
        ((MiscellaneousOperationControl.from_u8
            b.val).thermal_regulation_threshold).isSome = true ∧
        ((SystemStatus.from_u8 b.val).charge_status).isSome = true := by
  decide

/-- C9 counterexample: decoding `InputSourceControl`'s default byte
`0b0100_1011` does not give `input_current_limit = I993mA`: bits 0-2 are
`0b011 = 3`, the discriminant of `I470mA`. -/
theorem default_input_current_limit_counterexample :
    InputSourceControl.default = InputSourceControl.from_u8 0b01001011 ∧
      ¬ ((InputSourceControl.from_u8 0b01001011).input_current_limit =
          some InputCurrentLimit.I993mA) := by
  decide

/-- C9 amended: decoding `InputSourceControl`'s documented hardware-reset
default byte `0b0100_1011` (the value its `Default` impl carries) yields
`input_current_limit = I470mA`. -/
theorem default_input_current_limit_is_I470mA :
    InputSourceControl.default.bytes = 0b01001011 ∧
      InputSourceControl.default.input_current_limit =
        some InputCurrentLimit.I470mA := by
  decide

/-- C10 counterexample: the `impl MP2667` block exposes no `release`
method — its public API surface is exactly the sixteen methods of
`MP2667.methodNames` plus nothing else. -/
theorem no_release_method_counterexample :
    ¬ ("release" ∈ MP2667.methodNames) := by
  decide

/-- C10 amended: the driver exposes no release operation; `new` consumes
the transport handle, which is stored in the driver and never returned:
the public API is `new`, seven get/set pairs, `get_status` and
`get_faults` only. -/
theorem transport_owned_for_driver_lifetime :
    (∀ (E : Type) (bus : I2CBus E), (MP2667.new bus).i2c = bus) ∧
      ¬ ("release" ∈ MP2667.methodNames) ∧
      MP2667.methodNames.length = 17 := by
  exact ⟨fun E bus => rfl, by decide, by decide⟩
